import Mathlib

set_option maxRecDepth 8192

/-!
Verification of the flashfinance serverless proxy handlers.

The repository holds two implementations of the same Netlify endpoint:
`src/netlify/get-news.js` (here `handlerA`) and the unnamed variant
`src/unnamed/part_000` (here `handlerB`).  Both are shallowly embedded:

* JavaScript values produced by `JSON.parse` and property access are the
  inductive `Js` (with an explicit `undef` for JavaScript's `undefined`).
* `JSON.parse` is the platform primitive; the handlers take it as a
  function `parse : String → Except String Js` (`.error m` = the parse
  threw with message `m`).
* The network is an oracle `orc : Nat → FetchOutcome` giving the outcome
  of the `i`-th outbound `fetch` of the invocation: either the promise
  rejected with a message, or a response with `ok`, `status` and the
  outcome of `response.json()`.  The oracle is a function of the attempt
  index alone: the environment's answers do not feed the outbound URL
  (which carries the credential) back into the handler.
* A handler returns an `Outcome`: the result (`.error m` = an uncaught
  exception escaped the handler), the number of `fetch` calls performed,
  and the list of backoff waits (milliseconds) in order.
-/

namespace FFin

/-- JavaScript values as seen by the handlers.  Numbers are modelled as
integers; no fractional numeric value is inspected by either handler. -/
inductive Js where
  | undef : Js
  | null : Js
  | bool (b : Bool) : Js
  | num (n : Int) : Js
  | str (s : String) : Js
  | arr (elems : List Js) : Js
  | obj (fields : List (String × Js)) : Js

/-- JavaScript truthiness (`undefined`, `null`, `false`, `0`, `""` are
falsy; every object and array is truthy). -/
def Js.truthy : Js → Bool
  | .undef => false
  | .null => false
  | .bool b => b
  | .num n => n != 0
  | .str s => s != ""
  | .arr _ => true
  | .obj _ => true

/-- Property access `v.k`: defined fields of objects, `undefined`
otherwise.  (Access on `null` throws in JavaScript; the one place
`handlerB` can perform such an access is guarded explicitly there.) -/
def Js.getProp : Js → String → Js
  | .obj fields, k =>
    match fields.lookup k with
    | some v => v
    | none => Js.undef
  | _, _ => Js.undef

/-- `v[i]` on arrays, `undefined` otherwise. -/
def Js.atIdx : Js → Nat → Js
  | .arr elems, i => elems.getD i Js.undef
  | _, _ => Js.undef

/-- Escape one character as inside a JSON string literal. -/
def escChar (c : Char) : String :=
  if c = '"' then "\\\""
  else if c = '\\' then "\\\\"
  else if c = '\n' then "\\n"
  else if c = '\t' then "\\t"
  else if c = '\r' then "\\r"
  else String.singleton c

/-- Escape a string as inside a JSON string literal. -/
def escString (s : String) : String :=
  String.join (s.data.map escChar)

/-- A JSON string literal. -/
def quoteStr (s : String) : String :=
  "\"" ++ escString s ++ "\""

mutual

/-- `JSON.stringify`.  (Real `stringify` drops `undefined`-valued object
fields; no `undef` ever reaches a stringified result body in either
handler, so fields are kept uniformly here.) -/
def Js.stringify : Js → String
  | .undef => "null"
  | .null => "null"
  | .bool b => if b then "true" else "false"
  | .num n => toString n
  | .str s => quoteStr s
  | .arr elems => "[" ++ joinElems elems ++ "]"
  | .obj fields => "\x7b" ++ joinFields fields ++ "\x7d"

def joinElems : List Js → String
  | [] => ""
  | [x] => Js.stringify x
  | x :: y :: rest => Js.stringify x ++ "," ++ joinElems (y :: rest)

def joinFields : List (String × Js) → String
  | [] => ""
  | [(k, v)] => quoteStr k ++ ":" ++ Js.stringify v
  | (k, v) :: f :: rest =>
    quoteStr k ++ ":" ++ Js.stringify v ++ "," ++ joinFields (f :: rest)

end

/-- The inbound invocation: HTTP method and raw body (`none` = the body
is absent / `undefined`). -/
structure Event where
  httpMethod : String
  body : Option String

/-- A normalized result: status code, headers, stringified JSON body. -/
structure HRes where
  statusCode : Nat
  headers : List (String × String)
  body : String

/-- The outcome of `response.json()` together with the response status
line, for a `fetch` whose promise resolved. -/
structure FetchResp where
  ok : Bool
  status : Nat
  jsonResult : Except String Js

/-- Outcome of one outbound `fetch`: the promise rejected with a
message, or it resolved to a response. -/
inductive FetchOutcome where
  | reject (msg : String) : FetchOutcome
  | resp (r : FetchResp) : FetchOutcome

/-- What one invocation observably did: the returned result (`.error m`
= an uncaught exception with message `m` escaped the handler), how many
outbound `fetch` calls were made, and the backoff waits in milliseconds,
in order. -/
structure Outcome where
  result : Except String HRes
  calls : Nat
  waits : List Nat

/-- The status code of the returned result, `none` when the handler
raised instead of returning. -/
def Outcome.status (o : Outcome) : Option Nat :=
  match o.result with
  | .ok r => some r.statusCode
  | .error _ => none

/-- `JSON.stringify({error: msg})`. -/
def errBody (msg : String) : String :=
  Js.stringify (Js.obj [("error", Js.str msg)])

/-- `!API_KEY`: the environment variable is unset or the empty string. -/
def keyMissing : Option String → Bool
  | none => true
  | some s => s == ""

def GEMINI_MODEL : String := "gemini-2.5-flash-preview-09-2025"

/-- The outbound URL; this is the only place the credential flows. -/
def apiUrlOf (key : String) : String :=
  "https://generativelanguage.googleapis.com/v1beta/models/" ++ GEMINI_MODEL
    ++ ":generateContent?key=" ++ key

/-- The string `JSON.parse` receives in `handlerA`: an absent body is the
`undefined` value, which `JSON.parse` coerces to the string
`"undefined"` (never valid JSON). -/
def bodyStrA : Option String → String
  | none => "undefined"
  | some s => s

def maxRetries : Nat := 3

/-- The 200 result of `get-news.js`: forwards the parsed upstream body. -/
def success200 (j : Js) : HRes :=
  ⟨200, [("Content-Type", "application/json")], Js.stringify j⟩

/-- The 502 result of `get-news.js` on retry exhaustion. -/
def failure502 (m : String) : HRes :=
  ⟨502, [],
    Js.stringify (Js.obj
      [("error",
        Js.str "Failed to communicate with the Gemini API after multiple retries."),
       ("details", Js.str m)])⟩

/-- One iteration body of the `get-news.js` retry loop up to the `throw`:
a rejected `fetch` throws its message; on `!response.ok` the code first
awaits `response.json()` (whose own failure is what the `catch` sees)
and then throws `Gemini API returned status <status>`; on `response.ok`
the parsed body is the success value and a `response.json()` failure is
caught like any other error. -/
def attemptOutcome : FetchOutcome → Except String Js
  | .reject m => .error m
  | .resp r =>
    if r.ok then r.jsonResult
    else
      match r.jsonResult with
      | .error m => .error m
      | .ok _ => .error ("Gemini API returned status " ++ toString r.status)

/-- The `for (attempt = 0; attempt < maxRetries; attempt++)` loop of
`get-news.js`, as recursion on the retries remaining after the current
attempt (`retriesLeft = maxRetries - 1 - attempt`, so the source guard
`attempt < maxRetries - 1` is `retriesLeft > 0`).  Returns the result,
the number of `fetch` calls made, and the waits performed. -/
def loopA (orc : Nat → FetchOutcome) : Nat → Nat → HRes × Nat × List Nat
  | attempt, 0 =>
    match attemptOutcome (orc attempt) with
    | .ok j => (success200 j, 1, [])
    | .error m => (failure502 m, 1, [])
  | attempt, retriesLeft + 1 =>
    match attemptOutcome (orc attempt) with
    | .ok j => (success200 j, 1, [])
    | .error _ =>
      let r := loopA orc (attempt + 1) retriesLeft
      (r.1, r.2.1 + 1, 2 ^ attempt * 1000 :: r.2.2)

/-- `src/netlify/get-news.js`, `exports.handler`. -/
def handlerA (apiKey : Option String) (parse : String → Except String Js)
    (orc : Nat → FetchOutcome) (event : Event) : Outcome :=
  if event.httpMethod != "POST" then
    ⟨.ok ⟨405, [], errBody "Method Not Allowed"⟩, 0, []⟩
  else if keyMissing apiKey then
    ⟨.ok ⟨500, [], errBody "Server configuration error: API key missing."⟩, 0, []⟩
  else
    match parse (bodyStrA event.body) with
    | .error _ =>
      ⟨.ok ⟨400, [], errBody "Invalid JSON body provided."⟩, 0, []⟩
    | .ok payload =>
      if !payload.truthy || !(payload.getProp "contents").truthy then
        ⟨.ok ⟨400, [], errBody "Missing required \x27contents\x27 in payload."⟩, 0, []⟩
      else
        let r := loopA orc 0 (maxRetries - 1)
        ⟨.ok r.1, r.2.1, r.2.2⟩

/-- `event.body || '\x7b\x7d'` in `part_000`: an absent or empty body is
replaced by the empty-object literal. -/
def effBody : Option String → String
  | none => "\x7b\x7d"
  | some s => if s = "" then "\x7b\x7d" else s

def fetchUserQuery : String :=
  "What are the top 5 current finance and business news stories?"

def fetchSystemPrompt : String :=
  "Act as a concise news aggregator. Provide the title and full body of the top 5 finance stories. Format the output as clean markdown, separating each story clearly using titles and paragraphs."

def summarizeSystemPrompt : String :=
  "You are a highly efficient editor. Condense the provided financial news content into a single, cohesive, jargon-free paragraph. The summary must be 60 words or less. Do not use a title, introduction, or citation placeholders."

def googleSearchTool : Js := Js.obj [("google_search", Js.obj [])]

/-- The `if (apiType === ...)` dispatch of `part_000`: produces the
system prompt, the user query value and the tools list, or `none` when
the branch falls through to the 400 response. -/
def translateB (body : Js) : Option (String × Js × List Js) :=
  match body.getProp "type" with
  | Js.str s =>
    if s = "fetch" then
      some (fetchSystemPrompt, Js.str fetchUserQuery, [googleSearchTool])
    else if s = "summarize" then
      some (summarizeSystemPrompt, body.getProp "textToSummarize", [])
    else none
  | _ => none

/-- The provider payload built by `part_000`: `contents`,
`systemInstruction`, and `tools` appended only when the tools list is
non-empty. -/
def buildPayload (systemPrompt : String) (userQuery : Js) (tools : List Js) : Js :=
  let base :=
    [("contents", Js.arr [Js.obj [("parts", Js.arr [Js.obj [("text", userQuery)]])]]),
     ("systemInstruction",
      Js.obj [("parts", Js.arr [Js.obj [("text", Js.str systemPrompt)]])])]
  if tools.length > 0 then Js.obj (base ++ [("tools", Js.arr tools)])
  else Js.obj base

/-- The 500 result of `part_000`'s `catch` block. -/
def internalError500 : HRes :=
  ⟨500, [], errBody "Internal server error during API proxy."⟩

/-- The non-2xx passthrough result of `part_000`: upstream status, with
the parsed upstream error body under `details`. -/
def passthroughFail (status : Nat) (errorBody : Js) : HRes :=
  ⟨status, [],
    Js.stringify (Js.obj
      [("error", Js.str ("External API call failed: " ++ toString status)),
       ("details", errorBody)])⟩

/-- `src/unnamed/part_000`, `exports.handler`.  There is no method
check; `JSON.parse` sits outside any `try`, so a parse failure escapes
the handler (result `.error`), as does the `body.type` access when the
parsed body is `null`. -/
def handlerB (apiKey : Option String) (parse : String → Except String Js)
    (orc : Nat → FetchOutcome) (event : Event) : Outcome :=
  if keyMissing apiKey then
    ⟨.ok ⟨500, [], errBody "API Key is not configured on the server."⟩, 0, []⟩
  else
    match parse (effBody event.body) with
    | .error m => ⟨.error m, 0, []⟩
    | .ok Js.null =>
      ⟨.error "TypeError: Cannot read properties of null (reading \x27type\x27)", 0, []⟩
    | .ok body =>
      match translateB body with
      | none => ⟨.ok ⟨400, [], errBody "Invalid API type specified."⟩, 0, []⟩
      | some (systemPrompt, userQuery, tools) =>
        let payload := buildPayload systemPrompt userQuery tools
        match orc 0 with
        | .reject _ => ⟨.ok internalError500, 1, []⟩
        | .resp r =>
          if r.ok then
            match r.jsonResult with
            | .error _ => ⟨.ok internalError500, 1, []⟩
            | .ok result => ⟨.ok ⟨200, [], Js.stringify result⟩, 1, []⟩
          else
            match r.jsonResult with
            | .error _ => ⟨.ok internalError500, 1, []⟩
            | .ok errorBody => ⟨.ok (passthroughFail r.status errorBody), 1, []⟩

/-- A parse model that succeeds with a fixed value on every input. -/
def constParse (v : Js) : String → Except String Js := fun _ => Except.ok v

/-- A parse model that throws with a fixed message on every input. -/
def errParse (m : String) : String → Except String Js := fun _ => Except.error m

/-- A resolved 200 response whose body parses. -/
def okResp : FetchOutcome :=
  .resp ⟨true, 200, Except.ok (Js.obj [("candidates", Js.arr [])])⟩

/-- A resolved 503 response whose error body parses. -/
def failResp503 : FetchOutcome :=
  .resp ⟨false, 503, Except.ok (Js.obj [("message", Js.str "overloaded")])⟩

/-- An upstream that always succeeds. -/
def okOrc : Nat → FetchOutcome := fun _ => okResp

/-- An upstream that always answers 503. -/
def failOrc : Nat → FetchOutcome := fun _ => failResp503

/-- An upstream that answers 503 twice, then succeeds. -/
def failTwiceOrc : Nat → FetchOutcome := fun n =>
  match n with
  | 0 => failResp503
  | 1 => failResp503
  | _ => okResp

/-- A parsed body carrying a truthy `contents` field. -/
def rawContentsBody : Js := Js.obj [("contents", Js.str "hello")]

/-- A parsed body selecting the `fetch` intent. -/
def fetchIntentBody : Js := Js.obj [("type", Js.str "fetch")]

/-- The user content of a provider payload:
`payload.contents[0].parts[0].text`. -/
def userText (p : Js) : Js :=
  ((((p.getProp "contents").atIdx 0).getProp "parts").atIdx 0).getProp "text"

/-- The system instruction text of a provider payload:
`payload.systemInstruction.parts[0].text`. -/
def sysText (p : Js) : Js :=
  (((p.getProp "systemInstruction").getProp "parts").atIdx 0).getProp "text"

/-! ## Helper lemmas -/

/-- Unfolding `loopA` on the last attempt. -/
theorem loopA_zero (orc : Nat → FetchOutcome) (a : Nat) :
    loopA orc a 0 =
      (match attemptOutcome (orc a) with
       | .ok j => (success200 j, 1, [])
       | .error m => (failure502 m, 1, [])) := rfl

/-- Unfolding `loopA` with one retry left. -/
theorem loopA_one (orc : Nat → FetchOutcome) (a : Nat) :
    loopA orc a 1 =
      (match attemptOutcome (orc a) with
       | .ok j => (success200 j, 1, [])
       | .error _ =>
         let r := loopA orc (a + 1) 0
         (r.1, r.2.1 + 1, 2 ^ a * 1000 :: r.2.2)) := rfl

/-- Unfolding `loopA` with two retries left. -/
theorem loopA_two (orc : Nat → FetchOutcome) (a : Nat) :
    loopA orc a 2 =
      (match attemptOutcome (orc a) with
       | .ok j => (success200 j, 1, [])
       | .error _ =>
         let r := loopA orc (a + 1) 1
         (r.1, r.2.1 + 1, 2 ^ a * 1000 :: r.2.2)) := rfl

/-- The retry loop always performs at least one outbound call. -/
theorem loopA_calls_pos (orc : Nat → FetchOutcome) (a n : Nat) :
    1 ≤ (loopA orc a n).2.1 := by
  cases n with
  | zero =>
    rw [loopA_zero]
    cases attemptOutcome (orc a) <;> simp
  | succ k =>
    cases k with
    | zero =>
      rw [loopA_one]
      cases attemptOutcome (orc a) <;> simp
    | succ k2 =>
      show 1 ≤ (loopA orc a (k2 + 2)).2.1
      rw [show loopA orc a (k2 + 2) =
            (match attemptOutcome (orc a) with
             | .ok j => (success200 j, 1, [])
             | .error _ =>
               let r := loopA orc (a + 1) (k2 + 1)
               (r.1, r.2.1 + 1, 2 ^ a * 1000 :: r.2.2)) from rfl]
      cases attemptOutcome (orc a) <;> simp

/-! ## Claim theorems -/

/-- C2: for an invocation (valid POST, credential configured) whose
first two outbound attempts fail and whose third succeeds, `get-news.js`
returns status 200 with the success body, makes exactly 3 outbound
attempts, and the waits between consecutive attempts are `2^attempt`
seconds: 1000 ms after attempt 0 and 2000 ms after attempt 1, in that
order (the trace is strictly sequential: attempt, wait, attempt, wait,
attempt). -/
theorem c2_fail_twice_then_success (k : String)
    (parse : String → Except String Js) (orc : Nat → FetchOutcome)
    (e : Event) (v j : Js) (m0 m1 : String)
    (hk : k ≠ "") (hm : e.httpMethod = "POST")
    (hp : parse (bodyStrA e.body) = Except.ok v)
    (hv : v.truthy = true) (hc : (v.getProp "contents").truthy = true)
    (h0 : attemptOutcome (orc 0) = Except.error m0)
    (h1 : attemptOutcome (orc 1) = Except.error m1)
    (h2 : attemptOutcome (orc 2) = Except.ok j) :
    handlerA (some k) parse orc e =
      ⟨Except.ok (success200 j), 3, [1000, 2000]⟩ := by
  have hkm : keyMissing (some k) = false := by simp [keyMissing, hk]
  simp only [handlerA, hm, hkm, hp, hv, hc, maxRetries, bne_self_eq_false,
    Bool.false_eq_true, if_false, Bool.not_true, Bool.or_self]
  rw [show (3 : Nat) - 1 = 2 from rfl, loopA_two, h0, loopA_one, h1,
    loopA_zero, h2]
  simp

/-- C2 witness: an upstream answering 503 twice then succeeding, with a
valid raw-payload POST. -/
theorem c2_witness :
    handlerA (some "k") (constParse rawContentsBody) failTwiceOrc
        ⟨"POST", some "x"⟩ =
      ⟨Except.ok (success200 (Js.obj [("candidates", Js.arr [])])), 3,
        [1000, 2000]⟩ :=
  c2_fail_twice_then_success "k" (constParse rawContentsBody) failTwiceOrc
    ⟨"POST", some "x"⟩ rawContentsBody (Js.obj [("candidates", Js.arr [])])
    "Gemini API returned status 503" "Gemini API returned status 503"
    (by decide) rfl rfl rfl rfl rfl rfl rfl

/-- C1 counterexample: the claim quantifies over both handlers, but in
`part_000` a valid POST `fetch` invocation whose every outbound attempt
fails (the upstream answers 503 on every attempt) yields status 503
after exactly one attempt — not status 502 after 3 attempts. -/
theorem c1_counterexample :
    (handlerB (some "k") (constParse fetchIntentBody) failOrc
        ⟨"POST", some "x"⟩).status = some 503 ∧
    (handlerB (some "k") (constParse fetchIntentBody) failOrc
        ⟨"POST", some "x"⟩).calls = 1 ∧
    ¬((handlerB (some "k") (constParse fetchIntentBody) failOrc
        ⟨"POST", some "x"⟩).status = some 502 ∧
      (handlerB (some "k") (constParse fetchIntentBody) failOrc
        ⟨"POST", some "x"⟩).calls = 3) := by
  refine ⟨rfl, rfl, ?_⟩
  intro h
  exact absurd h.2 (by decide)

/-- C1 (amended): in `get-news.js`, for every invocation in which every
outbound attempt fails (non-2xx status or transport throw, uniformly),
the handler returns status 502 with body
`{error: ..., details: <last failure message>}` after exactly
`max_retries = 3` attempts (with waits of 1000 ms and 2000 ms).  The
`part_000` variant instead makes exactly one attempt and forwards the
upstream status, as the counterexample shows. -/
theorem c1_exhaustion_502 (k : String)
    (parse : String → Except String Js) (orc : Nat → FetchOutcome)
    (e : Event) (v : Js) (m0 m1 m2 : String)
    (hk : k ≠ "") (hm : e.httpMethod = "POST")
    (hp : parse (bodyStrA e.body) = Except.ok v)
    (hv : v.truthy = true) (hc : (v.getProp "contents").truthy = true)
    (h0 : attemptOutcome (orc 0) = Except.error m0)
    (h1 : attemptOutcome (orc 1) = Except.error m1)
    (h2 : attemptOutcome (orc 2) = Except.error m2) :
    handlerA (some k) parse orc e =
      ⟨Except.ok (failure502 m2), 3, [1000, 2000]⟩ := by
  have hkm : keyMissing (some k) = false := by simp [keyMissing, hk]
  simp only [handlerA, hm, hkm, hp, hv, hc, maxRetries, bne_self_eq_false,
    Bool.false_eq_true, if_false, Bool.not_true, Bool.or_self]
  rw [show (3 : Nat) - 1 = 2 from rfl, loopA_two, h0, loopA_one, h1,
    loopA_zero, h2]
  simp

/-- C1 witness: an upstream answering 503 on every attempt; the last
failure message names status 503. -/
theorem c1_exhaustion_502_witness :
    handlerA (some "k") (constParse rawContentsBody) failOrc
        ⟨"POST", some "x"⟩ =
      ⟨Except.ok (failure502 "Gemini API returned status 503"), 3,
        [1000, 2000]⟩ :=
  c1_exhaustion_502 "k" (constParse rawContentsBody) failOrc
    ⟨"POST", some "x"⟩ rawContentsBody "Gemini API returned status 503"
    "Gemini API returned status 503" "Gemini API returned status 503"
    (by decide) rfl rfl rfl rfl rfl rfl rfl

/-- C3 counterexample: in `part_000`, `JSON.parse` sits outside any
`try`, so a POST whose body is not parseable JSON makes the handler
raise (an uncaught exception, not a NormalizedResult) and in particular
it does not return status 400. -/
theorem c3_counterexample :
    (handlerB (some "k") (errParse "Unexpected token o in JSON at position 0")
        okOrc ⟨"POST", some "oops"⟩).result =
      Except.error "Unexpected token o in JSON at position 0" ∧
    (handlerB (some "k") (errParse "Unexpected token o in JSON at position 0")
        okOrc ⟨"POST", some "oops"⟩).status ≠ some 400 ∧
    (handlerB (some "k") (errParse "Unexpected token o in JSON at position 0")
        okOrc ⟨"POST", some "oops"⟩).calls = 0 :=
  ⟨rfl, by decide, rfl⟩

/-- C3 (amended): `get-news.js` never raises — on every input its result
is a NormalizedResult — and for every POST with configured credential
whose body is not parseable as JSON it returns status 400 with no
outbound call.  In `part_000` an unparseable body instead raises an
uncaught exception (with no outbound call), as the counterexample
shows. -/
theorem c3_handlerA_total_and_400 (k : Option String)
    (parse : String → Except String Js) (orc : Nat → FetchOutcome)
    (e : Event) (m : String)
    (hk : keyMissing k = false) (hm : e.httpMethod = "POST")
    (hp : parse (bodyStrA e.body) = Except.error m) :
    (∀ (k2 : Option String) (p2 : String → Except String Js)
        (o2 : Nat → FetchOutcome) (e2 : Event),
        ∃ r, (handlerA k2 p2 o2 e2).result = Except.ok r) ∧
    handlerA k parse orc e =
      ⟨Except.ok ⟨400, [], errBody "Invalid JSON body provided."⟩, 0, []⟩ := by
  constructor
  · intro k2 p2 o2 e2
    unfold handlerA
    split
    · exact ⟨_, rfl⟩
    · split
      · exact ⟨_, rfl⟩
      · split
        · exact ⟨_, rfl⟩
        · split
          · exact ⟨_, rfl⟩
          · exact ⟨_, rfl⟩
  · simp only [handlerA, hm, hk, hp, bne_self_eq_false, Bool.false_eq_true,
      if_false]

/-- C3 witness: a configured key, a POST whose body does not parse. -/
theorem c3_handlerA_total_and_400_witness :
    (∀ (k2 : Option String) (p2 : String → Except String Js)
        (o2 : Nat → FetchOutcome) (e2 : Event),
        ∃ r, (handlerA k2 p2 o2 e2).result = Except.ok r) ∧
    handlerA (some "k") (errParse "Unexpected token") okOrc
        ⟨"POST", some "not json"⟩ =
      ⟨Except.ok ⟨400, [], errBody "Invalid JSON body provided."⟩, 0, []⟩ :=
  c3_handlerA_total_and_400 (some "k") (errParse "Unexpected token") okOrc
    ⟨"POST", some "not json"⟩ "Unexpected token" rfl rfl rfl

/-- C4 counterexample: two inputs the claim says must be rejected with
400 before any network call are in fact accepted: a `summarize` request
without `textToSummarize` (`part_000` performs no such check), and a
RawPayload request whose `contents` is the empty array (an empty array
is truthy, so `get-news.js` accepts it).  Both reach the upstream and
return 200. -/
theorem c4_counterexample :
    ((handlerB (some "k") (constParse (Js.obj [("type", Js.str "summarize")]))
        okOrc ⟨"POST", some "x"⟩).status = some 200 ∧
     (handlerB (some "k") (constParse (Js.obj [("type", Js.str "summarize")]))
        okOrc ⟨"POST", some "x"⟩).calls = 1) ∧
    ((handlerA (some "k") (constParse (Js.obj [("contents", Js.arr [])]))
        okOrc ⟨"POST", some "x"⟩).status = some 200 ∧
     (handlerA (some "k") (constParse (Js.obj [("contents", Js.arr [])]))
        okOrc ⟨"POST", some "x"⟩).calls = 1) :=
  ⟨⟨rfl, rfl⟩, ⟨rfl, rfl⟩⟩

/-- C4 (amended): among POSTs with configured credential whose body
parses to `v`, `get-news.js` rejects with 400 before any network call
exactly when `v` is falsy or its `contents` field is absent or falsy
(an empty array or object is truthy and accepted); `part_000` rejects
with 400 before any network call exactly when `v` is not the literal
`null` and its `type` field is neither `fetch` nor `summarize` — for
the literal `null` body, `part_000` instead throws an uncaught
TypeError before any network call; in particular a `summarize` request
with absent or empty `textToSummarize` is not rejected and proceeds to
the network call. -/
theorem c4_validation_iff (k : String)
    (parse : String → Except String Js) (orc : Nat → FetchOutcome)
    (s : String) (v : Js)
    (hk : k ≠ "") (hs : s ≠ "") (hp : parse s = Except.ok v) :
    (((handlerA (some k) parse orc ⟨"POST", some s⟩).status = some 400 ∧
      (handlerA (some k) parse orc ⟨"POST", some s⟩).calls = 0) ↔
      (v.truthy = false ∨ (v.getProp "contents").truthy = false)) ∧
    (((handlerB (some k) parse orc ⟨"POST", some s⟩).status = some 400 ∧
      (handlerB (some k) parse orc ⟨"POST", some s⟩).calls = 0) ↔
      (translateB v = none ∧ v ≠ Js.null)) ∧
    (v = Js.null →
      (handlerB (some k) parse orc ⟨"POST", some s⟩).result =
        Except.error
          "TypeError: Cannot read properties of null (reading \x27type\x27)" ∧
      (handlerB (some k) parse orc ⟨"POST", some s⟩).calls = 0) := by
  have hkm : keyMissing (some k) = false := by simp [keyMissing, hk]
  have heff : effBody (some s) = s := by simp [effBody, hs]
  refine ⟨?_, ?_, ?_⟩
  · have hbA : bodyStrA (some s) = s := rfl
    cases hT : v.truthy <;> cases hC : (v.getProp "contents").truthy <;>
      simp only [handlerA, hbA, hkm, hp, hT, hC, bne_self_eq_false,
        Bool.false_eq_true, if_false, Bool.not_true, Bool.not_false,
        Bool.or_self, Bool.true_or, Bool.or_true, Bool.false_or,
        Bool.or_false, if_true, if_false, Outcome.status] <;>
      simp
    · -- both truthy: the dispatch loop runs, so at least one call is made
      have hpos := loopA_calls_pos orc 0 (maxRetries - 1)
      exact fun h400 hc0 => absurd hc0 (by omega)
  · cases v with
    | null =>
      simp only [handlerB, heff, hkm, hp, Bool.false_eq_true, if_false,
        translateB, Js.getProp, Outcome.status]
      simp
    | undef =>
      simp only [handlerB, heff, hkm, hp, Bool.false_eq_true, if_false,
        translateB, Js.getProp, Outcome.status]
      simp
    | bool b =>
      simp only [handlerB, heff, hkm, hp, Bool.false_eq_true, if_false,
        translateB, Js.getProp, Outcome.status]
      simp
    | num n =>
      simp only [handlerB, heff, hkm, hp, Bool.false_eq_true, if_false,
        translateB, Js.getProp, Outcome.status]
      simp
    | str s2 =>
      simp only [handlerB, heff, hkm, hp, Bool.false_eq_true, if_false,
        translateB, Js.getProp, Outcome.status]
      simp
    | arr elems =>
      simp only [handlerB, heff, hkm, hp, Bool.false_eq_true, if_false,
        translateB, Js.getProp, Outcome.status]
      simp
    | obj fields =>
      cases htr : translateB (Js.obj fields) with
      | none =>
        simp only [handlerB, heff, hkm, hp, htr, Bool.false_eq_true,
          if_false, Outcome.status]
        simp
      | some cfg =>
        obtain ⟨sp, uq, ts⟩ := cfg
        cases ho : orc 0 with
        | reject m =>
          simp only [handlerB, heff, hkm, hp, htr, ho, Bool.false_eq_true,
            if_false, Outcome.status, internalError500]
          simp
        | resp r =>
          cases hok : r.ok <;> cases hj : r.jsonResult <;>
            simp only [handlerB, heff, hkm, hp, htr, ho, hok, hj,
              Bool.false_eq_true, if_false, if_true, Outcome.status,
              internalError500, passthroughFail] <;>
            simp
  · intro hv
    subst hv
    refine ⟨?_, ?_⟩ <;>
      simp only [handlerB, heff, hkm, hp, Bool.false_eq_true, if_false]

/-- C4 witness for the amended claim: a valid RawPayload body, for which
both biconditionals are between false sides and the null implication is
vacuous. -/
theorem c4_validation_iff_witness :
    (((handlerA (some "k") (constParse rawContentsBody) okOrc
        ⟨"POST", some "x"⟩).status = some 400 ∧
      (handlerA (some "k") (constParse rawContentsBody) okOrc
        ⟨"POST", some "x"⟩).calls = 0) ↔
      (rawContentsBody.truthy = false ∨
        (rawContentsBody.getProp "contents").truthy = false)) ∧
    (((handlerB (some "k") (constParse rawContentsBody) okOrc
        ⟨"POST", some "x"⟩).status = some 400 ∧
      (handlerB (some "k") (constParse rawContentsBody) okOrc
        ⟨"POST", some "x"⟩).calls = 0) ↔
      (translateB rawContentsBody = none ∧ rawContentsBody ≠ Js.null)) ∧
    (rawContentsBody = Js.null →
      (handlerB (some "k") (constParse rawContentsBody) okOrc
          ⟨"POST", some "x"⟩).result =
        Except.error
          "TypeError: Cannot read properties of null (reading \x27type\x27)" ∧
      (handlerB (some "k") (constParse rawContentsBody) okOrc
          ⟨"POST", some "x"⟩).calls = 0) :=
  c4_validation_iff "k" (constParse rawContentsBody) okOrc "x"
    rawContentsBody (by decide) (by decide) rfl

/-- C5 counterexample: `part_000` performs no method check at all — a
GET with a valid `fetch` body and configured credential proceeds to the
outbound call and returns 200, instead of 405 with no outbound call. -/
theorem c5_counterexample :
    (handlerB (some "k") (constParse fetchIntentBody) okOrc
        ⟨"GET", some "x"⟩).status = some 200 ∧
    (handlerB (some "k") (constParse fetchIntentBody) okOrc
        ⟨"GET", some "x"⟩).calls = 1 ∧
    (handlerB (some "k") (constParse fetchIntentBody) okOrc
        ⟨"GET", some "x"⟩).status ≠ some 405 :=
  ⟨rfl, rfl, by decide⟩

/-- C5 (amended): in `get-news.js`, every request whose HTTP method is
not POST yields exactly status 405 with no outbound call; `part_000`
performs no method check and handles non-POST requests exactly like
POST requests, as the counterexample shows. -/
theorem c5_non_post_405 (k : Option String)
    (parse : String → Except String Js) (orc : Nat → FetchOutcome)
    (e : Event) (hm : e.httpMethod ≠ "POST") :
    handlerA k parse orc e =
      ⟨Except.ok ⟨405, [], errBody "Method Not Allowed"⟩, 0, []⟩ := by
  simp only [handlerA, bne_iff_ne, ne_eq, hm, not_false_eq_true, if_true]

/-- C5 witness: a GET request. -/
theorem c5_non_post_405_witness :
    handlerA (some "k") (errParse "x") okOrc ⟨"GET", none⟩ =
      ⟨Except.ok ⟨405, [], errBody "Method Not Allowed"⟩, 0, []⟩ :=
  c5_non_post_405 (some "k") (errParse "x") okOrc ⟨"GET", none⟩ (by decide)

/-- C6: credential noninterference.  For any two configured credentials,
both handlers produce identical outcomes (result, status, body, calls
and waits) on every request and every environment behavior: the
credential flows only into the outbound URL (`apiUrlOf`) and never into
any returned body, so no error body interpolates the credential or the
credential-bearing URL. -/
theorem c6_credential_noninterference (k1 k2 : String)
    (parse : String → Except String Js) (orc : Nat → FetchOutcome)
    (e : Event) (h1 : k1 ≠ "") (h2 : k2 ≠ "") :
    handlerA (some k1) parse orc e = handlerA (some k2) parse orc e ∧
    handlerB (some k1) parse orc e = handlerB (some k2) parse orc e := by
  have e1 : keyMissing (some k1) = false := by simp [keyMissing, h1]
  have e2 : keyMissing (some k2) = false := by simp [keyMissing, h2]
  constructor
  · simp only [handlerA, e1, e2]
  · simp only [handlerB, e1, e2]

/-- C6 witness: two distinct concrete credentials on a concrete
request. -/
theorem c6_credential_noninterference_witness :
    handlerA (some "alpha") (errParse "x") okOrc ⟨"POST", none⟩ =
      handlerA (some "beta") (errParse "x") okOrc ⟨"POST", none⟩ ∧
    handlerB (some "alpha") (errParse "x") okOrc ⟨"POST", none⟩ =
      handlerB (some "beta") (errParse "x") okOrc ⟨"POST", none⟩ :=
  c6_credential_noninterference "alpha" "beta" (errParse "x") okOrc
    ⟨"POST", none⟩ (by decide) (by decide)

/-- C7 counterexample: in `get-news.js` the method check precedes the
credential check, so a GET invocation with missing credential returns
405, not 500. -/
theorem c7_counterexample :
    (handlerA none (errParse "x") okOrc ⟨"GET", none⟩).status = some 405 ∧
    (handlerA none (errParse "x") okOrc ⟨"GET", none⟩).status ≠ some 500 ∧
    (handlerA none (errParse "x") okOrc ⟨"GET", none⟩).calls = 0 :=
  ⟨rfl, by decide, rfl⟩

/-- C7 (amended): with the credential configuration missing, no outbound
network call ever occurs in either handler; `part_000` returns status
500 with an `{error: ...}` body for every method, and `get-news.js`
returns that 500 body for POST invocations (for non-POST invocations
the method check fires first and yields 405, as the counterexample
shows). -/
theorem c7_missing_credential_500 (k : Option String)
    (parse : String → Except String Js) (orc : Nat → FetchOutcome)
    (e : Event) (hk : keyMissing k = true) :
    handlerB k parse orc e =
      ⟨Except.ok ⟨500, [], errBody "API Key is not configured on the server."⟩,
        0, []⟩ ∧
    (handlerA k parse orc e).calls = 0 ∧
    (e.httpMethod = "POST" →
      handlerA k parse orc e =
        ⟨Except.ok
            ⟨500, [], errBody "Server configuration error: API key missing."⟩,
          0, []⟩) := by
  refine ⟨by simp only [handlerB, hk, if_true], ?_, ?_⟩
  · by_cases hm : e.httpMethod = "POST"
    · simp only [handlerA, hm, hk, bne_self_eq_false, Bool.false_eq_true,
        if_false, if_true]
    · simp only [handlerA, bne_iff_ne, ne_eq, hm, not_false_eq_true, if_true]
  · intro hm
    simp only [handlerA, hm, hk, bne_self_eq_false, Bool.false_eq_true,
      if_false, if_true]

/-- C7 witness: a POST invocation with the credential unset. -/
theorem c7_missing_credential_500_witness :
    handlerB none (errParse "x") okOrc ⟨"POST", some "b"⟩ =
      ⟨Except.ok ⟨500, [], errBody "API Key is not configured on the server."⟩,
        0, []⟩ ∧
    (handlerA none (errParse "x") okOrc ⟨"POST", some "b"⟩).calls = 0 ∧
    (("POST" : String) = "POST" →
      handlerA none (errParse "x") okOrc ⟨"POST", some "b"⟩ =
        ⟨Except.ok
            ⟨500, [], errBody "Server configuration error: API key missing."⟩,
          0, []⟩) :=
  c7_missing_credential_500 none (errParse "x") okOrc ⟨"POST", some "b"⟩ rfl

/-- The payload built with a non-empty tools list carries them under
`tools`. -/
theorem buildPayload_tools_cons (sp : String) (uq t : Js) (ts : List Js) :
    (buildPayload sp uq (t :: ts)).getProp "tools" = Js.arr (t :: ts) := by
  unfold buildPayload
  rw [if_pos (by simp : (t :: ts).length > 0)]
  rfl

/-- The payload built with an empty tools list has no `tools` field. -/
theorem buildPayload_tools_nil (sp : String) (uq : Js) :
    (buildPayload sp uq []).getProp "tools" = Js.undef := by
  unfold buildPayload
  rw [if_neg (by simp : ¬ ([] : List Js).length > 0)]
  rfl

/-- C8: for every well-formed TypedIntent request (one `translateB`
accepts), the provider payload `part_000` builds and sends carries a
`tools` field — and it is exactly the real-time `google_search`
activation — if and only if the intent type is `fetch`; for `summarize`
no `tools` field is attached (the access yields `undefined`). -/
theorem c8_tools_iff_fetch (body : Js) (sp : String) (uq : Js)
    (ts : List Js) (h : translateB body = some (sp, uq, ts)) :
    ((buildPayload sp uq ts).getProp "tools" = Js.arr [googleSearchTool] ↔
      body.getProp "type" = Js.str "fetch") ∧
    ((buildPayload sp uq ts).getProp "tools" = Js.undef ↔
      body.getProp "type" = Js.str "summarize") := by
  unfold translateB at h
  cases hv : body.getProp "type" with
  | str s =>
    rw [hv] at h
    simp only [] at h
    by_cases hf : s = "fetch"
    · subst hf
      rw [if_pos rfl] at h
      obtain ⟨rfl, rfl, rfl⟩ : sp = fetchSystemPrompt ∧
          uq = Js.str fetchUserQuery ∧ ts = [googleSearchTool] := by
        injection h with h2
        injection h2 with ha hb
        injection hb with hb hc
        exact ⟨ha.symm, hb.symm, hc.symm⟩
      rw [buildPayload_tools_cons]
      simp
    · by_cases hs : s = "summarize"
      · subst hs
        rw [if_neg hf, if_pos rfl] at h
        obtain ⟨rfl, rfl, rfl⟩ : sp = summarizeSystemPrompt ∧
            uq = body.getProp "textToSummarize" ∧ ts = [] := by
          injection h with h2
          injection h2 with ha hb
          injection hb with hb hc
          exact ⟨ha.symm, hb.symm, hc.symm⟩
        rw [buildPayload_tools_nil]
        simp
      · rw [if_neg hf, if_neg hs] at h
        exact absurd h (by simp)
  | undef => rw [hv] at h; exact absurd h (by simp)
  | null => rw [hv] at h; exact absurd h (by simp)
  | bool b => rw [hv] at h; exact absurd h (by simp)
  | num n => rw [hv] at h; exact absurd h (by simp)
  | arr elems => rw [hv] at h; exact absurd h (by simp)
  | obj fields => rw [hv] at h; exact absurd h (by simp)

/-- C8 witness: the `fetch` intent body. -/
theorem c8_tools_iff_fetch_witness :
    ((buildPayload fetchSystemPrompt (Js.str fetchUserQuery)
        [googleSearchTool]).getProp "tools" = Js.arr [googleSearchTool] ↔
      fetchIntentBody.getProp "type" = Js.str "fetch") ∧
    ((buildPayload fetchSystemPrompt (Js.str fetchUserQuery)
        [googleSearchTool]).getProp "tools" = Js.undef ↔
      fetchIntentBody.getProp "type" = Js.str "summarize") :=
  c8_tools_iff_fetch fetchIntentBody fetchSystemPrompt
    (Js.str fetchUserQuery) [googleSearchTool] rfl

/-- C9: for every well-formed `summarize` request with non-empty
`textToSummarize`, `part_000` selects the summarize configuration, the
produced payload's user content (`contents[0].parts[0].text`) is the
supplied text verbatim, its system instruction is the fixed editorial
prompt, and that prompt states the 60-words-or-less constraint. -/
theorem c9_summarize_payload (body : Js) (t : String)
    (hty : body.getProp "type" = Js.str "summarize")
    (htx : body.getProp "textToSummarize" = Js.str t)
    (hne : t ≠ "") :
    translateB body = some (summarizeSystemPrompt, Js.str t, []) ∧
    userText (buildPayload summarizeSystemPrompt (Js.str t) []) =
      Js.str t ∧
    sysText (buildPayload summarizeSystemPrompt (Js.str t) []) =
      Js.str summarizeSystemPrompt ∧
    ∃ pre post, summarizeSystemPrompt = pre ++ "60 words or less" ++ post := by
  refine ⟨?_, rfl, rfl,
    "You are a highly efficient editor. Condense the provided financial news content into a single, cohesive, jargon-free paragraph. The summary must be ",
    ". Do not use a title, introduction, or citation placeholders.",
    by decide⟩
  unfold translateB
  rw [hty]
  simp [htx]

/-- C9 witness: a concrete summarize request with non-empty text. -/
theorem c9_summarize_payload_witness :
    translateB (Js.obj [("type", Js.str "summarize"),
        ("textToSummarize", Js.str "Markets rallied today.")]) =
      some (summarizeSystemPrompt, Js.str "Markets rallied today.", []) ∧
    userText (buildPayload summarizeSystemPrompt
        (Js.str "Markets rallied today.") []) =
      Js.str "Markets rallied today." ∧
    sysText (buildPayload summarizeSystemPrompt
        (Js.str "Markets rallied today.") []) =
      Js.str summarizeSystemPrompt ∧
    ∃ pre post, summarizeSystemPrompt = pre ++ "60 words or less" ++ post :=
  c9_summarize_payload
    (Js.obj [("type", Js.str "summarize"),
      ("textToSummarize", Js.str "Markets rallied today.")])
    "Markets rallied today." rfl rfl (by decide)

/-- C10 counterexample: a POST with entirely absent body does not return
400 when the credential is unset — the credential check fires first and
both handlers return 500. -/
theorem c10_counterexample :
    (handlerA none (errParse "x") okOrc ⟨"POST", none⟩).status = some 500 ∧
    (handlerA none (errParse "x") okOrc ⟨"POST", none⟩).status ≠ some 400 ∧
    (handlerB none (errParse "x") okOrc ⟨"POST", none⟩).status = some 500 ∧
    (handlerB none (errParse "x") okOrc ⟨"POST", none⟩).status ≠ some 400 :=
  ⟨rfl, by decide, rfl, by decide⟩

/-- C10 (amended): for every POST whose body is entirely absent
(`undefined` or the empty string), with the credential configured, both
handlers return status 400 with no outbound call — `get-news.js`
because parsing the absent body fails (`JSON.parse` coerces it to the
string `"undefined"`, and neither it nor `""` is valid JSON), and
`part_000` because the `|| '\x7b\x7d'` default parses to an empty object
whose intent type is unrecognized.  When the credential is missing both
handlers instead return 500, as the counterexample shows. -/
theorem c10_absent_body_400 (k : String)
    (parse : String → Except String Js) (orc : Nat → FetchOutcome)
    (b : Option String) (mU mE : String)
    (hk : k ≠ "") (hb : b = none ∨ b = some "")
    (hU : parse "undefined" = Except.error mU)
    (hE : parse "" = Except.error mE)
    (hO : parse "\x7b\x7d" = Except.ok (Js.obj [])) :
    handlerA (some k) parse orc ⟨"POST", b⟩ =
      ⟨Except.ok ⟨400, [], errBody "Invalid JSON body provided."⟩, 0, []⟩ ∧
    handlerB (some k) parse orc ⟨"POST", b⟩ =
      ⟨Except.ok ⟨400, [], errBody "Invalid API type specified."⟩, 0, []⟩ ∧
    (handlerA none parse orc ⟨"POST", b⟩).status = some 500 ∧
    (handlerB none parse orc ⟨"POST", b⟩).status = some 500 := by
  have hkm : keyMissing (some k) = false := by simp [keyMissing, hk]
  rcases hb with rfl | rfl
  · refine ⟨?_, ?_, rfl, rfl⟩
    · simp only [handlerA, bodyStrA, hkm, hU, bne_self_eq_false,
        Bool.false_eq_true, if_false]
    · simp only [handlerB, effBody, hkm, hO, Bool.false_eq_true, if_false,
        translateB, Js.getProp, List.lookup]
  · refine ⟨?_, ?_, rfl, rfl⟩
    · simp only [handlerA, bodyStrA, hkm, hE, bne_self_eq_false,
        Bool.false_eq_true, if_false]
    · have heff : effBody (some "") = "\x7b\x7d" := rfl
      simp only [handlerB, heff, hkm, hO, Bool.false_eq_true, if_false,
        translateB, Js.getProp, List.lookup]

/-- C10 witness: an absent body with a configured credential, with a
parse model agreeing with `JSON.parse` on the three relevant inputs. -/
theorem c10_absent_body_400_witness :
    handlerA (some "k")
        (fun s => if s = "\x7b\x7d" then Except.ok (Js.obj [])
          else Except.error "Unexpected token")
        okOrc ⟨"POST", none⟩ =
      ⟨Except.ok ⟨400, [], errBody "Invalid JSON body provided."⟩, 0, []⟩ ∧
    handlerB (some "k")
        (fun s => if s = "\x7b\x7d" then Except.ok (Js.obj [])
          else Except.error "Unexpected token")
        okOrc ⟨"POST", none⟩ =
      ⟨Except.ok ⟨400, [], errBody "Invalid API type specified."⟩, 0, []⟩ ∧
    (handlerA none
        (fun s => if s = "\x7b\x7d" then Except.ok (Js.obj [])
          else Except.error "Unexpected token")
        okOrc ⟨"POST", none⟩).status = some 500 ∧
    (handlerB none
        (fun s => if s = "\x7b\x7d" then Except.ok (Js.obj [])
          else Except.error "Unexpected token")
        okOrc ⟨"POST", none⟩).status = some 500 :=
  c10_absent_body_400 "k"
    (fun s => if s = "\x7b\x7d" then Except.ok (Js.obj [])
      else Except.error "Unexpected token")
    okOrc none "Unexpected token" "Unexpected token" (by decide)
    (Or.inl rfl) rfl rfl rfl

end FFin
